import Mathlib

/-!
Verification development for the trading dashboard and journal application
(`trading_app.py`).  The pure logic of the program is embedded shallowly:

* prices, RSI, ATR, balances and P/L amounts become `Rat`;
* the signal evaluator of `create_analysis_panel` becomes `evaluate_signal`;
* the planner arithmetic of the buy branch becomes `buy_trade_plan`;
* the journal edit/delete handlers become `close_trade` / `remove_trade`
  on an explicit `LedgerState` (journal rows plus account balance);
* Python `round` (half-to-even) becomes `py_round`.
-/

namespace TradingApp

/-- Whether `needle` occurs at the head of `hay` (character lists). -/
def matchesAt : List Char → List Char → Bool
  | [], _ => true
  | _ :: _, [] => false
  | a :: as, b :: bs => a == b && matchesAt as bs

/-- Whether `needle` occurs anywhere inside `hay` (character lists). -/
def hasSub (needle : List Char) : List Char → Bool
  | [] => matchesAt needle []
  | a :: as => matchesAt needle (a :: as) || hasSub needle as

/-- Python's `needle in hay` substring test on strings. -/
def strHasSub (hay needle : String) : Bool :=
  hasSub needle.toList hay.toList

/-- The constant `SL_ATR_MULTIPLIER = 2.0` from the source. -/
def SL_ATR_MULTIPLIER : Rat := 2

/-- The constant `RR_RATIO = 1.5` from the source. -/
def rewardRiskRatio : Rat := 3 / 2

/-- Source `get_pip_multiplier`: 100 when the pair name contains `"JPY"`, else 10000. -/
def get_pip_multiplier (pair : String) : Rat :=
  if strHasSub pair "JPY" then 100 else 10000

/-- Source `PIP_VALUE_USD_PER_LOT.get(pair, 10)`: the static per-pair table with
default 10 for pairs absent from it. -/
def pip_value_usd_per_lot (pair : String) : Rat :=
  if pair = "EUR/USD" then 10
  else if pair = "GBP/USD" then 10
  else if pair = "USD/JPY" then 68 / 10
  else if pair = "AUD/USD" then 10
  else if pair = "USD/CAD" then 72 / 10
  else 10

/-- Source `calculate_position_size(balance, risk_pct, sl_pips, pair)`: returns
`(lot_size, risk_amount)`, guarding `sl_pips <= 0` with `(0, 0)` before any
division takes place. -/
def calculate_position_size (balance risk_pct sl_pips : Rat) (pair : String) :
    Rat × Rat :=
  if sl_pips ≤ 0 then (0, 0)
  else
    let risk_amount := balance * (risk_pct / 100)
    let pip_value := pip_value_usd_per_lot pair
    (risk_amount / (sl_pips * pip_value), risk_amount)

/-- Round-half-to-even on integers, the tie rule of Python's `round`. -/
def round_half_even (x : Rat) : Int :=
  let f : Int := ⌊x⌋
  let frac : Rat := x - (f : Rat)
  if frac < 1 / 2 then f
  else if 1 / 2 < frac then f + 1
  else if f % 2 = 0 then f else f + 1

/-- Python's `round(x, ndigits)` on exact rationals. -/
def py_round (ndigits : Nat) (x : Rat) : Rat :=
  (round_half_even (x * (10 : Rat) ^ ndigits) : Rat) / (10 : Rat) ^ ndigits

/-- Higher-timeframe trend classification named by the design documents.
The persisted per-pair settings dictionary may carry such a key, but
`create_analysis_panel` reads only the six keys listed in
`PairSettings` below and never this one. -/
inductive DailyTrend
  | unchecked
  | uptrend
  | downtrend
  | sideways
deriving DecidableEq, Repr

/-- One per-pair indicator snapshot, as stored in
`app_state["pair_settings"][pair]`.  The panel reads exactly the six
leading fields; `daily_trend` models a higher-timeframe key that the
panel never reads. -/
structure PairSettings where
  current_price : Rat
  ema_50_price : Rat
  rsi_14_value : Rat
  raw_atr_value : Rat
  is_bullish_candle : Bool
  is_bearish_candle : Bool
  daily_trend : DailyTrend := DailyTrend.unchecked
deriving DecidableEq, Repr

/-- The test `30 < rsi_14_value <= 45`, the buy RSI window of the panel. -/
def buy_rsi_ok (rsi : Rat) : Bool :=
  decide (30 < rsi) && decide (rsi ≤ 45)

/-- The test `55 <= rsi_14_value < 70`, the sell RSI window of the panel. -/
def sell_rsi_ok (rsi : Rat) : Bool :=
  decide (55 ≤ rsi) && decide (rsi < 70)

/-- The three outcomes of the panel's decision chain: the strong-buy branch,
the strong-sell branch, and the wait branch. -/
inductive Signal
  | buy
  | sell
  | wait
deriving DecidableEq, Repr

/-- The decision chain of `create_analysis_panel`: trend is `Uptrend` iff
`current_price > ema_50_price` (ties fall to `Downtrend`); buy needs
uptrend, the buy RSI window and a bullish candle; sell needs downtrend,
the sell RSI window and a bearish candle; otherwise wait. -/
def evaluate_signal (s : PairSettings) : Signal :=
  let buy_trend_ok := decide (s.ema_50_price < s.current_price)
  if buy_trend_ok && buy_rsi_ok s.rsi_14_value && s.is_bullish_candle then
    Signal.buy
  else if !buy_trend_ok && sell_rsi_ok s.rsi_14_value && s.is_bearish_candle then
    Signal.sell
  else
    Signal.wait

/-- The ephemeral plan displayed by the strong-buy branch. -/
structure TradePlan where
  entry : Rat
  sl : Rat
  tp : Rat
  sl_pips : Rat
  tp_pips : Rat
  lot_size : Rat
  risk_amount : Rat
deriving DecidableEq, Repr

/-- The buy-branch planner arithmetic of `create_analysis_panel`:
`atr_pips = raw_atr * multiplier`, `sl_pips = atr_pips * 2`,
`tp_pips = sl_pips * 1.5`, prices offset by pips over the multiplier,
and sizing through `calculate_position_size`. -/
def buy_trade_plan (pair : String)
    (current_price raw_atr_value balance risk_pct : Rat) : TradePlan :=
  let pip_multiplier := get_pip_multiplier pair
  let atr_pips := raw_atr_value * pip_multiplier
  let entry := current_price
  let sl_pips := atr_pips * SL_ATR_MULTIPLIER
  let sl := entry - sl_pips / pip_multiplier
  let tp_pips := sl_pips * rewardRiskRatio
  let tp := entry + tp_pips / pip_multiplier
  let sized := calculate_position_size balance risk_pct sl_pips pair
  { entry := entry, sl := sl, tp := tp, sl_pips := sl_pips, tp_pips := tp_pips,
    lot_size := sized.1, risk_amount := sized.2 }

/-- The Outcome column values: Pending, Win, Loss. -/
inductive Outcome
  | Pending
  | Win
  | Loss
deriving DecidableEq, Repr

/-- The Direction column values: Buy, Sell. -/
inductive Direction
  | Buy
  | Sell
deriving DecidableEq, Repr

/-- One journal row, with the thirteen columns of `create_empty_journal_df`. -/
structure JournalRecord where
  date : String
  pair : String
  direction : Direction
  entry : Rat
  exitPrice : Rat
  sl : Rat
  tp : Rat
  lot_size : Rat
  pl_pips : Rat
  pl_usd : Rat
  outcome : Outcome
  reason : String
  review : String
deriving DecidableEq, Repr

/-- Journal rows (indexed by position, as the reset pandas index) together
with `global_settings["account_balance"]`. -/
structure LedgerState where
  journal : List JournalRecord
  account_balance : Rat
deriving DecidableEq, Repr

/-- Source `get_default_settings()` account balance: 1000.0. -/
def default_account_balance : Rat := 1000

/-- The default application state: empty journal, balance 1000. -/
def default_state : LedgerState :=
  { journal := [], account_balance := default_account_balance }

/-- The contribution of one row to the non-pending P/L sum: its `pl_usd`
when the row is not pending, else `0` (the row is filtered out). -/
def pl_contrib (r : JournalRecord) : Rat :=
  if r.outcome = Outcome.Pending then 0 else r.pl_usd

/-- Source `df_finished` sum: the sum of `pl_usd`
over the non-pending rows. -/
def sum_pl_non_pending : List JournalRecord → Rat
  | [] => 0
  | r :: rest => pl_contrib r + sum_pl_non_pending rest

/-- The data carried by a confirm-buy / confirm-sell button press. -/
structure AppendArgs where
  date : String
  pair : String
  direction : Direction
  entry : Rat
  sl : Rat
  tp : Rat
  lot_size : Rat
  reason : String

/-- The `new_trade` dictionary built by the confirm buttons: `Exit = 0`,
`Lot_Size = round(lot_size, 2)`, zero P/L, outcome `Pending`, empty review. -/
def new_trade_record (a : AppendArgs) : JournalRecord :=
  { date := a.date, pair := a.pair, direction := a.direction, entry := a.entry,
    exitPrice := 0, sl := a.sl, tp := a.tp, lot_size := py_round 2 a.lot_size,
    pl_pips := 0, pl_usd := 0, outcome := Outcome.Pending, reason := a.reason,
    review := "" }

/-- Source `pd.concat([pd.DataFrame([new_trade]), df])`: the new row is prepended;
the balance is not touched by a confirm button. -/
def append_trade (s : LedgerState) (a : AppendArgs) : LedgerState :=
  { s with journal := new_trade_record a :: s.journal }

/-- The fields of the journal edit form. -/
structure CloseArgs where
  entry_price : Rat
  sl_price : Rat
  tp_price : Rat
  exit_price : Rat
  outcome : Outcome
  review_notes : String

/-- Source `pips`: `(exit - entry) * multiplier` for a buy, `(entry - exit) *
multiplier` for a sell, from the submitted form prices and the row's pair. -/
def close_pips (rec : JournalRecord) (a : CloseArgs) : Rat :=
  let pm := get_pip_multiplier rec.pair
  match rec.direction with
  | Direction.Buy => (a.exit_price - a.entry_price) * pm
  | Direction.Sell => (a.entry_price - a.exit_price) * pm

/-- The row after the edit form writes back: form prices and outcome stored;
`P/L (Pips)` is `round(pips, 1)` and `P/L ($)` is `round(pl_usd, 2)` unless
the outcome is `Pending`, in which case both are forced to `0`. -/
def closed_record (rec : JournalRecord) (a : CloseArgs) : JournalRecord :=
  let pips := close_pips rec a
  let pip_value := pip_value_usd_per_lot rec.pair
  let usd := pips * pip_value * rec.lot_size
  { rec with
    entry := a.entry_price, sl := a.sl_price, tp := a.tp_price,
    exitPrice := a.exit_price, outcome := a.outcome,
    pl_pips := if a.outcome = Outcome.Pending then 0 else py_round 1 pips,
    pl_usd := if a.outcome = Outcome.Pending then 0 else py_round 2 usd,
    review := a.review_notes }

/-- The edit-form submit handler: looking up a missing row raises `KeyError`
and changes nothing (`none`); otherwise the row is rewritten and the balance
is recomputed as the default baseline plus the non-pending P/L sum of the
updated journal. -/
def close_trade (s : LedgerState) (idx : Nat) (a : CloseArgs) :
    Option LedgerState :=
  match s.journal[idx]? with
  | none => none
  | some rec =>
      let journal2 := s.journal.set idx (closed_record rec a)
      some { journal := journal2,
             account_balance :=
               default_account_balance + sum_pl_non_pending journal2 }

/-- The delete button: reads the row (a missing row fails with nothing read),
subtracts the row's `P/L ($)` from the balance, then drops the row and
resets the index. -/
def remove_trade (s : LedgerState) (idx : Nat) : Option LedgerState :=
  match s.journal[idx]? with
  | none => none
  | some rec =>
      some { journal := s.journal.eraseIdx idx,
             account_balance := s.account_balance - rec.pl_usd }

/-- A ledger operation: confirm (append), edit-form submit (close), or
delete (remove). -/
inductive LedgerOp
  | append : AppendArgs → LedgerOp
  | close : Nat → CloseArgs → LedgerOp
  | remove : Nat → LedgerOp

/-- Run one operation; a failing close/remove leaves the state unchanged. -/
def apply_op (s : LedgerState) : LedgerOp → LedgerState
  | LedgerOp.append a => append_trade s a
  | LedgerOp.close i a => (close_trade s i a).getD s
  | LedgerOp.remove i => (remove_trade s i).getD s

/-- Run a sequence of operations from a state. -/
def apply_ops (s : LedgerState) : List LedgerOp → LedgerState
  | [] => s
  | op :: rest => apply_ops (apply_op s op) rest

/-- A stored journal cell: a number or a string. -/
inductive CellValue
  | num : Rat → CellValue
  | str : String → CellValue
deriving DecidableEq, Repr

/-- The thirteen required journal columns of `create_empty_journal_df`. -/
def journal_columns : List String :=
  ["Date", "Pair", "Direction", "Entry", "Exit", "SL", "TP", "Lot_Size",
   "P/L (Pips)", "P/L ($)", "Outcome", "Reason", "Review"]

/-- Source expression `0.0 if "P/L" in col or col == "Lot_Size" else ""`, the backfill value
`load_journal` writes into a missing column. -/
def backfill_value (col : String) : CellValue :=
  if strHasSub col "P/L" || col = "Lot_Size" then CellValue.num 0
  else CellValue.str ""

/-- The column-completion loop of `load_journal`: stored columns are kept,
and each required column absent from the store is appended with its
backfill value. -/
def load_journal_columns (stored : List (String × CellValue)) :
    List (String × CellValue) :=
  stored ++
    (journal_columns.filter
      (fun c => !(stored.map Prod.fst).contains c)).map
      (fun c => (c, backfill_value c))

/-- Every pending row carries zero `pl_usd`. -/
def pending_pl_zero (j : List JournalRecord) : Prop :=
  ∀ r ∈ j, r.outcome = Outcome.Pending → r.pl_usd = 0

/-- The ledger consistency invariant: the balance is the default baseline
plus the non-pending P/L sum, and pending rows carry zero `pl_usd`. -/
def ledger_inv (s : LedgerState) : Prop :=
  s.account_balance = default_account_balance + sum_pl_non_pending s.journal ∧
    pending_pl_zero s.journal

/-! Helper lemmas -/

theorem pip_value_usd_per_lot_pos (pair : String) :
    0 < pip_value_usd_per_lot pair := by
  unfold pip_value_usd_per_lot
  repeat' split
  all_goals norm_num

theorem pl_contrib_eq_pl_usd (r : JournalRecord)
    (h : r.outcome = Outcome.Pending → r.pl_usd = 0) :
    pl_contrib r = r.pl_usd := by
  unfold pl_contrib
  split
  · exact (h ‹_›).symm
  · rfl

theorem closed_record_outcome (rec : JournalRecord) (a : CloseArgs) :
    (closed_record rec a).outcome = a.outcome := rfl

theorem closed_record_pl_usd_of_pending (rec : JournalRecord) (a : CloseArgs)
    (h : a.outcome = Outcome.Pending) : (closed_record rec a).pl_usd = 0 := by
  simp [closed_record, h]

theorem closed_record_pl_pips_of_pending (rec : JournalRecord) (a : CloseArgs)
    (h : a.outcome = Outcome.Pending) : (closed_record rec a).pl_pips = 0 := by
  simp [closed_record, h]

theorem sum_pl_set (j : List JournalRecord) (i : Nat) (r x : JournalRecord)
    (h : j[i]? = some r) :
    sum_pl_non_pending (j.set i x) =
      sum_pl_non_pending j - pl_contrib r + pl_contrib x := by
  induction j generalizing i with
  | nil => simp at h
  | cons a l ih =>
      cases i with
      | zero =>
          simp only [List.getElem?_cons_zero, Option.some.injEq] at h
          subst h
          simp [sum_pl_non_pending]
          ring
      | succ n =>
          simp only [List.getElem?_cons_succ] at h
          simp [sum_pl_non_pending, ih n h]
          ring

theorem sum_pl_eraseIdx (j : List JournalRecord) (i : Nat) (r : JournalRecord)
    (h : j[i]? = some r) :
    sum_pl_non_pending (j.eraseIdx i) = sum_pl_non_pending j - pl_contrib r := by
  induction j generalizing i with
  | nil => simp at h
  | cons a l ih =>
      cases i with
      | zero =>
          simp only [List.getElem?_cons_zero, Option.some.injEq] at h
          subst h
          simp [sum_pl_non_pending]
      | succ n =>
          simp only [List.getElem?_cons_succ] at h
          simp [sum_pl_non_pending, ih n h]
          ring

theorem pending_pl_zero_set (j : List JournalRecord) (i : Nat)
    (x : JournalRecord) (hj : pending_pl_zero j)
    (hx : x.outcome = Outcome.Pending → x.pl_usd = 0) :
    pending_pl_zero (j.set i x) := by
  intro r hr
  rcases List.mem_or_eq_of_mem_set hr with h | rfl
  · exact hj r h
  · exact hx

theorem pending_pl_zero_eraseIdx (j : List JournalRecord) (i : Nat)
    (hj : pending_pl_zero j) : pending_pl_zero (j.eraseIdx i) :=
  fun r hr => hj r (List.mem_of_mem_eraseIdx hr)

theorem closed_record_pending_imp (rec : JournalRecord) (a : CloseArgs) :
    (closed_record rec a).outcome = Outcome.Pending →
      (closed_record rec a).pl_usd = 0 := by
  rw [closed_record_outcome]
  intro h
  exact closed_record_pl_usd_of_pending rec a h

/-! Sample inputs used by witnesses and counterexamples -/

/-- A pending EUR/USD buy row with entry `1.0` and lot size `1`. -/
def sampleRecord : JournalRecord :=
  { date := "2024-01-02", pair := "EUR/USD", direction := Direction.Buy,
    entry := 1, exitPrice := 0, sl := 0, tp := 0, lot_size := 1,
    pl_pips := 0, pl_usd := 0, outcome := Outcome.Pending, reason := "",
    review := "" }

/-- A state holding `sampleRecord` under an arbitrary balance of 5000. -/
def sampleState : LedgerState :=
  { journal := [sampleRecord], account_balance := 5000 }

/-- A state holding `sampleRecord` under the baseline balance 1000, which
satisfies the ledger invariant. -/
def invState : LedgerState :=
  { journal := [sampleRecord], account_balance := 1000 }

/-- Edit-form data closing a buy at exit `1.001` as a win: 10 pips,
hence `pl_usd = 10 * 10 * 1 = 100`. -/
def winArgs : CloseArgs :=
  { entry_price := 1, sl_price := 0, tp_price := 0, exit_price := 1001 / 1000,
    outcome := Outcome.Win, review_notes := "" }

/-- Edit-form data with outcome `Pending` and a nonzero exit price. -/
def pendingArgs : CloseArgs :=
  { entry_price := 1, sl_price := 0, tp_price := 0, exit_price := 2,
    outcome := Outcome.Pending, review_notes := "note" }

/-- Confirm-button data for a EUR/USD buy. -/
def sampleAppendArgs : AppendArgs :=
  { date := "2024-01-02", pair := "EUR/USD", direction := Direction.Buy,
    entry := 10855 / 10000, sl := 10825 / 10000, tp := 109 / 100,
    lot_size := 1 / 30, reason := "plan" }

/-- The Scenario D snapshot: higher-timeframe analysis not performed
(`daily_trend = unchecked`) while the H4 trend, RSI and candle conditions
satisfy a full buy signal. -/
def scenarioDSnapshot : PairSettings :=
  { current_price := 10855 / 10000, ema_50_price := 10820 / 10000,
    rsi_14_value := 40, raw_atr_value := 15 / 10000,
    is_bullish_candle := true, is_bearish_candle := false,
    daily_trend := DailyTrend.unchecked }

/-! Claims -/

/-- C3: Trade Planner correctness on Scenario A. For EUR/USD with
current price 1.08550, raw ATR 0.00150, pip multiplier 10000, balance 1000,
risk 1.0 % and pip value 10, the plan has stop 30 pips at 1.08250, target
45 pips at 1.09000, risk amount 10 and lot size 10/(30*10) = 1/30, with
RSI 40 inside the buy window and price above the EMA reference. -/
theorem scenario_a_plan :
    buy_rsi_ok 40 = true ∧
    decide ((10820 / 10000 : Rat) < 10855 / 10000) = true ∧
    buy_trade_plan "EUR/USD" (10855 / 10000) (15 / 10000) 1000 1 =
      { entry := 10855 / 10000, sl := 10825 / 10000, tp := 109 / 100,
        sl_pips := 30, tp_pips := 45, lot_size := 1 / 30,
        risk_amount := 10 } ∧
    (1 / 30 : Rat) = 10 / (30 * 10) := by
  refine ⟨by norm_num [buy_rsi_ok], by norm_num, ?_, by norm_num⟩
  norm_num [buy_trade_plan, calculate_position_size,
    show get_pip_multiplier "EUR/USD" = 10000 from rfl,
    show pip_value_usd_per_lot "EUR/USD" = 10 from rfl,
    SL_ATR_MULTIPLIER, rewardRiskRatio]

/-- C4: the buy RSI condition holds iff `30 < rsi ≤ 45` and the sell RSI
condition holds iff `55 ≤ rsi < 70`; 45 satisfies buy, anything above 45
does not, 55 satisfies sell, anything below 55 does not. -/
theorem rsi_boundary_policy :
    (∀ rsi : Rat, buy_rsi_ok rsi = true ↔ 30 < rsi ∧ rsi ≤ 45) ∧
    (∀ rsi : Rat, sell_rsi_ok rsi = true ↔ 55 ≤ rsi ∧ rsi < 70) ∧
    buy_rsi_ok 45 = true ∧
    (∀ rsi : Rat, 45 < rsi → buy_rsi_ok rsi = false) ∧
    sell_rsi_ok 55 = true ∧
    (∀ rsi : Rat, rsi < 55 → sell_rsi_ok rsi = false) := by
  refine ⟨fun rsi => ?_, fun rsi => ?_, by norm_num [buy_rsi_ok],
    fun rsi h => ?_, by norm_num [sell_rsi_ok], fun rsi h => ?_⟩
  · simp [buy_rsi_ok]
  · simp [sell_rsi_ok]
  · simp only [buy_rsi_ok, Bool.and_eq_false_iff, decide_eq_false_iff_not,
      not_le, not_lt]
    right
    exact h
  · simp only [sell_rsi_ok, Bool.and_eq_false_iff, decide_eq_false_iff_not,
      not_le, not_lt]
    left
    exact h

/-- C4 witness: 46 fails the buy window and 54.9999 fails the sell window. -/
theorem rsi_boundary_policy_witness :
    buy_rsi_ok 46 = false ∧ sell_rsi_ok (549999 / 10000) = false :=
  ⟨rsi_boundary_policy.2.2.2.1 46 (by norm_num),
    rsi_boundary_policy.2.2.2.2.2 (549999 / 10000) (by norm_num)⟩

/-- C5 counterexample: on the Scenario D snapshot, whose `daily_trend` is
`unchecked` while the trend, RSI and candle conditions satisfy a full buy,
the panel's decision chain emits the strong-buy signal — not an
"insufficient data" result distinct from buy/sell/wait (no such result
exists in the chain). -/
theorem unchecked_daily_trend_buy :
    scenarioDSnapshot.daily_trend = DailyTrend.unchecked ∧
    evaluate_signal scenarioDSnapshot = Signal.buy ∧
    Signal.buy ≠ Signal.wait := by
  refine ⟨rfl, ?_, by simp⟩
  norm_num [evaluate_signal, scenarioDSnapshot, buy_rsi_ok]

/-- C5 amended: the panel's decision chain never consults any
higher-timeframe `daily_trend` field — its result is invariant under that
field — and its only results are buy, sell and wait; there is no separate
"insufficient data — awaiting analysis" result. -/
theorem evaluator_ignores_daily_trend :
    (∀ (s : PairSettings) (d : DailyTrend),
      evaluate_signal { s with daily_trend := d } = evaluate_signal s) ∧
    (∀ s : PairSettings,
      evaluate_signal s = Signal.buy ∨ evaluate_signal s = Signal.sell ∨
        evaluate_signal s = Signal.wait) := by
  constructor
  · intro s d
    simp [evaluate_signal]
  · intro s
    cases h : evaluate_signal s <;> simp [h]

/-- C5 amended witness: overwriting the Scenario D snapshot's `daily_trend`
with `sideways` does not change the emitted signal. -/
theorem evaluator_ignores_daily_trend_witness :
    evaluate_signal
        { scenarioDSnapshot with daily_trend := DailyTrend.sideways } =
      evaluate_signal scenarioDSnapshot :=
  evaluator_ignores_daily_trend.1 scenarioDSnapshot DailyTrend.sideways

/-- C6: with `sl_pips <= 0` the sizing step returns `(0, 0)` before any
division; the division is reached only for `sl_pips > 0`, where its divisor
`sl_pips * pip_value` is nonzero, and the returned lot size is never
negative for nonnegative balance and risk percentage. -/
theorem position_size_guard (balance risk_pct sl_pips : Rat) (pair : String) :
    (sl_pips ≤ 0 →
      calculate_position_size balance risk_pct sl_pips pair = (0, 0)) ∧
    (0 < sl_pips →
      sl_pips * pip_value_usd_per_lot pair ≠ 0 ∧
      calculate_position_size balance risk_pct sl_pips pair =
        (balance * (risk_pct / 100) / (sl_pips * pip_value_usd_per_lot pair),
          balance * (risk_pct / 100))) ∧
    (0 ≤ balance → 0 ≤ risk_pct →
      0 ≤ (calculate_position_size balance risk_pct sl_pips pair).1) := by
  have hpv := pip_value_usd_per_lot_pos pair
  refine ⟨fun h => ?_, fun h => ⟨?_, ?_⟩, fun hb hr => ?_⟩
  · simp [calculate_position_size, h]
  · exact ne_of_gt (mul_pos h hpv)
  · simp [calculate_position_size, not_le.mpr h]
  · unfold calculate_position_size
    split
    · norm_num
    · rename_i hsl
      push_neg at hsl
      exact div_nonneg (mul_nonneg hb (by positivity)) (le_of_lt (mul_pos hsl hpv))

/-- C6 witness: a degenerate stop of −5 pips yields lot and risk 0, a stop
of 30 pips divides by the nonzero 30 * 10, and the lot is nonnegative. -/
theorem position_size_guard_witness :
    calculate_position_size 1000 1 (-5) "EUR/USD" = (0, 0) ∧
    (30 : Rat) * pip_value_usd_per_lot "EUR/USD" ≠ 0 ∧
    0 ≤ (calculate_position_size 1000 1 30 "EUR/USD").1 :=
  ⟨(position_size_guard 1000 1 (-5) "EUR/USD").1 (by norm_num),
    ((position_size_guard 1000 1 30 "EUR/USD").2.1 (by norm_num)).1,
    (position_size_guard 1000 1 30 "EUR/USD").2.2 (by norm_num) (by norm_num)⟩

/-- C10 counterexample: loading a stored journal with no columns at all
backfills the numeric column `Entry` with the empty string, not with 0.0. -/
theorem load_backfill_counterexample :
    (load_journal_columns []).lookup "Entry" = some (CellValue.str "") ∧
    CellValue.str "" ≠ CellValue.num 0 := by
  exact ⟨rfl, by simp⟩

/-- Auxiliary: looking a key up past a prefix none of whose keys is it. -/
theorem lookup_append_of_contains_false (l1 l2 : List (String × CellValue))
    (k : String) (h : (l1.map Prod.fst).contains k = false) :
    (l1 ++ l2).lookup k = l2.lookup k := by
  induction l1 with
  | nil => rfl
  | cons p l ih =>
      obtain ⟨k1, v1⟩ := p
      simp only [List.map_cons, List.contains_cons, Bool.or_eq_false_iff] at h
      simp only [List.cons_append, List.lookup_cons, h.1]
      exact ih h.2

/-- Auxiliary: looking up a key in a key-value table built from a list. -/
theorem lookup_map_pair (l : List String) (k : String)
    (f : String → CellValue) (h : k ∈ l) :
    (l.map (fun c => (c, f c))).lookup k = some (f k) := by
  induction l with
  | nil => simp at h
  | cons c l ih =>
      by_cases hc : k = c
      · subst hc
        simp [List.lookup_cons]
      · have hk : (k == c) = false := beq_eq_false_iff_ne.mpr hc
        simp only [List.map_cons, List.lookup_cons, hk]
        refine ih ?_
        rcases List.mem_cons.mp h with rfl | hmem2
        · exact absurd rfl hc
        · exact hmem2

/-- C10 amended: a required column missing from the stored journal is
backfilled with 0.0 exactly when it is `Lot_Size`, `P/L (Pips)` or
`P/L ($)`; every other missing column — including the numeric `Entry`,
`Exit`, `SL` and `TP` — is backfilled with the empty string. -/
theorem load_backfill_values (stored : List (String × CellValue))
    (col : String) (hmem : col ∈ journal_columns)
    (habs : (stored.map Prod.fst).contains col = false) :
    (load_journal_columns stored).lookup col =
      some (if col = "Lot_Size" ∨ col = "P/L (Pips)" ∨ col = "P/L ($)"
        then CellValue.num 0 else CellValue.str "") := by
  unfold load_journal_columns
  rw [lookup_append_of_contains_false _ _ _ habs]
  rw [lookup_map_pair _ _ _ (List.mem_filter.mpr ⟨hmem, by
    show (!(stored.map Prod.fst).contains col) = true
    rw [habs]
    rfl⟩)]
  have : backfill_value col =
      (if col = "Lot_Size" ∨ col = "P/L (Pips)" ∨ col = "P/L ($)"
        then CellValue.num 0 else CellValue.str "") := by
    fin_cases hmem <;> rfl
  rw [this]

/-- C10 witness: a store holding only a `Date` column gets `Entry`
backfilled with the empty string and `Lot_Size` with 0.0. -/
theorem load_backfill_values_witness :
    (load_journal_columns [("Date", CellValue.str "x")]).lookup "Entry" =
      some (CellValue.str "") ∧
    (load_journal_columns [("Date", CellValue.str "x")]).lookup "Lot_Size" =
      some (CellValue.num 0) := by
  constructor
  · have h := load_backfill_values [("Date", CellValue.str "x")] "Entry"
      (by simp [journal_columns]) (by simp)
    simpa using h
  · have h := load_backfill_values [("Date", CellValue.str "x")] "Lot_Size"
      (by simp [journal_columns]) (by simp)
    simpa using h

/-! Ledger invariant preservation -/

theorem ledger_inv_default : ledger_inv default_state := by
  constructor
  · simp [default_state, sum_pl_non_pending]
  · intro r hr
    simp [default_state] at hr

theorem ledger_inv_append (s : LedgerState) (a : AppendArgs)
    (h : ledger_inv s) : ledger_inv (append_trade s a) := by
  obtain ⟨hbal, hpend⟩ := h
  constructor
  · simpa [append_trade, sum_pl_non_pending, pl_contrib, new_trade_record]
      using hbal
  · intro r hr
    rcases List.mem_cons.mp hr with rfl | hr2
    · intro _
      rfl
    · exact hpend r hr2

theorem ledger_inv_close (s : LedgerState) (i : Nat) (a : CloseArgs)
    (h : ledger_inv s) : ledger_inv ((close_trade s i a).getD s) := by
  obtain ⟨hbal, hpend⟩ := h
  cases hrec : s.journal[i]? with
  | none =>
      simp only [close_trade, hrec, Option.getD_none]
      exact ⟨hbal, hpend⟩
  | some rec =>
      constructor
      · simp [close_trade, hrec]
      · simp only [close_trade, hrec, Option.getD_some]
        exact pending_pl_zero_set _ _ _ hpend (closed_record_pending_imp rec a)

theorem ledger_inv_remove (s : LedgerState) (i : Nat)
    (h : ledger_inv s) : ledger_inv ((remove_trade s i).getD s) := by
  obtain ⟨hbal, hpend⟩ := h
  cases hrec : s.journal[i]? with
  | none =>
      simp only [remove_trade, hrec, Option.getD_none]
      exact ⟨hbal, hpend⟩
  | some rec =>
      have hmem : rec ∈ s.journal := List.getElem?_mem hrec
      have hc : pl_contrib rec = rec.pl_usd :=
        pl_contrib_eq_pl_usd rec (hpend rec hmem)
      constructor
      · simp only [remove_trade, hrec, Option.getD_some]
        show s.account_balance - rec.pl_usd =
          default_account_balance +
            sum_pl_non_pending (s.journal.eraseIdx i)
        rw [sum_pl_eraseIdx s.journal i rec hrec, hc, hbal]
        ring
      · simp only [remove_trade, hrec, Option.getD_some]
        exact pending_pl_zero_eraseIdx _ _ hpend

theorem ledger_inv_apply_op (s : LedgerState) (op : LedgerOp)
    (h : ledger_inv s) : ledger_inv (apply_op s op) := by
  cases op with
  | append a => exact ledger_inv_append s a h
  | close i a => exact ledger_inv_close s i a h
  | remove i => exact ledger_inv_remove s i h

theorem ledger_inv_apply_ops (s : LedgerState) (ops : List LedgerOp)
    (h : ledger_inv s) : ledger_inv (apply_ops s ops) := by
  induction ops generalizing s with
  | nil => exact h
  | cons op rest ih => exact ih _ (ledger_inv_apply_op s op h)

/-- C1: after any sequence of ledger operations (append, close, remove)
starting from the default state, the account balance equals the fixed
baseline 1000 plus the sum of `pl_usd` over the non-pending rows. -/
theorem balance_consistency_invariant (ops : List LedgerOp) :
    (apply_ops default_state ops).account_balance =
      default_account_balance +
        sum_pl_non_pending (apply_ops default_state ops).journal :=
  (ledger_inv_apply_ops default_state ops ledger_inv_default).1

/-- A small concrete history: confirm a buy, close it as a win, delete it. -/
def sampleOps : List LedgerOp :=
  [LedgerOp.append sampleAppendArgs, LedgerOp.close 0 winArgs,
    LedgerOp.remove 0]

/-- C1 witness: the invariant holds at the end of the concrete history
append, close-as-win, remove. -/
theorem balance_consistency_invariant_witness :
    (apply_ops default_state sampleOps).account_balance =
      default_account_balance +
        sum_pl_non_pending (apply_ops default_state sampleOps).journal :=
  balance_consistency_invariant sampleOps

/-- C2 counterexample: closing the pending row of `sampleState` (prior
balance 5000) as a win computes a new `pl_usd` of 100 from a previous
`pl_usd` of 0, yet the balance afterwards is 1100 — the baseline recompute —
not the 5100 the incremental-delta claim predicts for this prior balance. -/
theorem close_delta_counterexample :
    (close_trade sampleState 0 winArgs).map LedgerState.account_balance =
      some 1100 ∧
    (close_trade sampleState 0 winArgs).map
        (fun s2 => s2.journal.map JournalRecord.pl_usd) = some [100] ∧
    sampleState.account_balance = 5000 ∧ sampleRecord.pl_usd = 0 ∧
    (1100 : Rat) ≠ 5000 + (100 - 0) := by
  refine ⟨?_, ?_, rfl, rfl, by norm_num⟩ <;>
    norm_num [close_trade, sampleState, sampleRecord, winArgs, closed_record,
      close_pips, sum_pl_non_pending, pl_contrib, default_account_balance,
      py_round, round_half_even,
      show get_pip_multiplier "EUR/USD" = 10000 from rfl,
      show pip_value_usd_per_lot "EUR/USD" = 10 from rfl,
      show (Outcome.Win = Outcome.Pending) = False from by simp]

/-- C2 amended: when the prior state satisfies the ledger consistency
invariant (as every state reachable from the default state does), closing
an existing row changes the balance by exactly (new pl_usd − the row's
previous pl_usd); closing a pending row for the first time applies the full
new pl_usd. For prior balances violating the invariant the code instead
recomputes baseline + Σ, as the counterexample shows. -/
theorem close_balance_delta (s : LedgerState) (i : Nat) (a : CloseArgs)
    (rec : JournalRecord) (hinv : ledger_inv s)
    (hrec : s.journal[i]? = some rec) :
    ∃ s2, close_trade s i a = some s2 ∧
      s2.journal[i]? = some (closed_record rec a) ∧
      s2.account_balance =
        s.account_balance + ((closed_record rec a).pl_usd - rec.pl_usd) ∧
      (rec.outcome = Outcome.Pending →
        s2.account_balance =
          s.account_balance + (closed_record rec a).pl_usd) := by
  obtain ⟨hbal, hpend⟩ := hinv
  obtain ⟨hlen, -⟩ := List.getElem?_eq_some_iff.mp hrec
  have hmem : rec ∈ s.journal := List.getElem?_mem hrec
  have hcrec : pl_contrib rec = rec.pl_usd :=
    pl_contrib_eq_pl_usd rec (hpend rec hmem)
  have hcnew : pl_contrib (closed_record rec a) =
      (closed_record rec a).pl_usd :=
    pl_contrib_eq_pl_usd _ (closed_record_pending_imp rec a)
  have hbal2 : default_account_balance +
      sum_pl_non_pending (s.journal.set i (closed_record rec a)) =
      s.account_balance + ((closed_record rec a).pl_usd - rec.pl_usd) := by
    rw [sum_pl_set s.journal i rec _ hrec, hcrec, hcnew, hbal]
    ring
  simp only [close_trade, hrec]
  refine ⟨_, rfl, ?_, ?_, ?_⟩
  · exact List.getElem?_set_self hlen
  · exact hbal2
  · intro hp
    have h0 : rec.pl_usd = 0 := hpend rec hmem hp
    show default_account_balance +
        sum_pl_non_pending (s.journal.set i (closed_record rec a)) =
      s.account_balance + (closed_record rec a).pl_usd
    rw [hbal2, h0]
    ring

/-- C2 witness: closing the pending row of the invariant-satisfying
`invState` (balance 1000) as a win applies the full new `pl_usd`. -/
theorem close_balance_delta_witness :
    ∃ s2, close_trade invState 0 winArgs = some s2 ∧
      s2.journal[0]? = some (closed_record sampleRecord winArgs) ∧
      s2.account_balance =
        invState.account_balance +
          ((closed_record sampleRecord winArgs).pl_usd -
            sampleRecord.pl_usd) ∧
      (sampleRecord.outcome = Outcome.Pending →
        s2.account_balance =
          invState.account_balance +
            (closed_record sampleRecord winArgs).pl_usd) := by
  refine close_balance_delta invState 0 winArgs sampleRecord ⟨?_, ?_⟩ rfl
  · norm_num [invState, sampleRecord, sum_pl_non_pending, pl_contrib,
      default_account_balance]
  · intro r hr hp
    simp only [invState, List.mem_singleton] at hr
    subst hr
    rfl

/-- The second close with identical arguments rewrites the row to the very
same values: the recomputation only reads fields (pair, direction,
lot size) that a close never changes. -/
theorem closed_record_idem (rec : JournalRecord) (a : CloseArgs) :
    closed_record (closed_record rec a) a = closed_record rec a := by
  simp [closed_record, close_pips]

/-- C7: closing a record a second time with arguments identical to the
first call reproduces exactly the state of the first close — in particular
the second call's balance delta is 0. -/
theorem close_idempotent (s s1 : LedgerState) (i : Nat) (a : CloseArgs)
    (h : close_trade s i a = some s1) : close_trade s1 i a = some s1 := by
  cases hrec : s.journal[i]? with
  | none =>
      simp only [close_trade, hrec] at h
      exact Option.noConfusion h
  | some rec =>
      simp only [close_trade, hrec, Option.some.injEq] at h
      obtain ⟨hlen, -⟩ := List.getElem?_eq_some_iff.mp hrec
      subst h
      have hget : (s.journal.set i (closed_record rec a))[i]? =
          some (closed_record rec a) := List.getElem?_set_self (by simpa)
      simp only [close_trade, hget, closed_record_idem, List.set_set]

/-- The state produced by closing `sampleState`'s row as a win. -/
def sampleClosedState : LedgerState :=
  { journal := [closed_record sampleRecord winArgs],
    account_balance := 1100 }

/-- C7 witness: re-closing the already-closed `sampleClosedState` with the
same arguments changes nothing. -/
theorem close_idempotent_witness :
    close_trade sampleClosedState 0 winArgs = some sampleClosedState := by
  refine close_idempotent sampleState sampleClosedState 0 winArgs ?_
  simp only [close_trade,
    show sampleState.journal[0]? = some sampleRecord from rfl]
  norm_num [sampleClosedState, sampleState, sum_pl_non_pending, pl_contrib,
    default_account_balance,
    show (Outcome.Win = Outcome.Pending) = False from by simp,
    closed_record, close_pips, winArgs, sampleRecord, py_round,
    round_half_even,
    show get_pip_multiplier "EUR/USD" = 10000 from rfl,
    show pip_value_usd_per_lot "EUR/USD" = 10 from rfl]

/-- C8: a record created by a confirm button and then closed with outcome
`Pending` ends with `pl_pips = 0` and `pl_usd = 0`, whatever the exit
price and other prices supplied to the close. -/
theorem pending_close_roundtrip (s : LedgerState) (p : AppendArgs)
    (a : CloseArgs) (h : a.outcome = Outcome.Pending) :
    ∃ s2, close_trade (append_trade s p) 0 a = some s2 ∧
      ∃ r, s2.journal[0]? = some r ∧ r.pl_pips = 0 ∧ r.pl_usd = 0 := by
  have hget : (append_trade s p).journal[0]? = some (new_trade_record p) := by
    simp [append_trade]
  simp only [close_trade, hget]
  refine ⟨_, rfl, closed_record (new_trade_record p) a, ?_, ?_, ?_⟩
  · apply List.getElem?_set_self
    simp [append_trade]
  · exact closed_record_pl_pips_of_pending _ _ h
  · exact closed_record_pl_usd_of_pending _ _ h

/-- C8 witness: appending the sample plan to the default state and closing
it as still pending with exit price 2 leaves both P/L fields at 0. -/
theorem pending_close_roundtrip_witness :
    ∃ s2, close_trade (append_trade default_state sampleAppendArgs) 0
        pendingArgs = some s2 ∧
      ∃ r, s2.journal[0]? = some r ∧ r.pl_pips = 0 ∧ r.pl_usd = 0 :=
  pending_close_roundtrip default_state sampleAppendArgs pendingArgs rfl

/-- C9: a close or remove aimed at a record index that is not in the
journal fails with the not-found outcome (`none`) and the state — balance
and all rows — is left unchanged. -/
theorem missing_record_no_mutation (s : LedgerState) (i : Nat)
    (a : CloseArgs) (h : s.journal[i]? = none) :
    close_trade s i a = none ∧ remove_trade s i = none ∧
    apply_op s (LedgerOp.close i a) = s ∧
    apply_op s (LedgerOp.remove i) = s := by
  refine ⟨?_, ?_, ?_, ?_⟩ <;>
    simp [close_trade, remove_trade, apply_op, h]

/-- C9 witness: closing or removing index 5 of the empty default journal
fails and leaves the default state intact. -/
theorem missing_record_no_mutation_witness :
    close_trade default_state 5 winArgs = none ∧
    remove_trade default_state 5 = none ∧
    apply_op default_state (LedgerOp.close 5 winArgs) = default_state ∧
    apply_op default_state (LedgerOp.remove 5) = default_state :=
  missing_record_no_mutation default_state 5 winArgs rfl

end TradingApp
